import Mathlib

/-!
Verification of the KVMGFX client (src/client/main.c) against its
natural-language specification.

The development shallowly embeds the client's pure functions
(compFunc_NONE, compFunc_BLACK_RLE, areFormatsSame, mapScancode) and the
control flow of renderThread / eventThread as executable Lean functions.
Machine bytes are modelled as Nat, buffers as functions from offsets to
bytes, and the side effects of the render and event loops as explicit
event traces.
-/

namespace LookingGlass

/-! ### Frame header data model

Modelled from the spec: the enums `FrameType` and `FrameComp` live in
KVMGFXHeader.h, which is not under src/.  The spec lists frameType tags
ARGB, ARGB10, RGB, XOR, YUV444P, YUV420P and INVALID and compType tags
NONE and BLACK_RLE.  Concrete numbering is a model choice (INVALID first,
as the zero-initialised tag); only distinctness and the identity of the
INVALID tag matter to the client code. -/

def FRAME_TYPE_INVALID : Nat := 0
def FRAME_TYPE_ARGB    : Nat := 1
def FRAME_TYPE_RGB     : Nat := 2
def FRAME_TYPE_XOR     : Nat := 3
def FRAME_TYPE_YUV444P : Nat := 4
def FRAME_TYPE_YUV420P : Nat := 5
def FRAME_TYPE_ARGB10  : Nat := 6

def FRAME_COMP_NONE      : Nat := 0
def FRAME_COMP_BLACK_RLE : Nat := 1

/-- Modelled from the spec: the magic byte sequence of KVMGFXHeader.h
(`a fixed byte sequence identifying a valid region`).  The concrete value
is unknown (the header is not under src/); the client only ever compares
it for equality, so any fixed list is a faithful model. -/
def KVMGFX_HEADER_MAGIC : List Nat := [75, 86, 77, 71, 70, 88]

/-- The shared-memory frame header `struct KVMGFXHeader`.
Modelled from the spec: field list from spec section 3 (magic, version,
guestID, hostID, frameType, compType, width, height, stride, mouseX,
mouseY); the struct declaration itself is in KVMGFXHeader.h, not under
src/. -/
structure KVMGFXHeader where
  magic     : List Nat
  version   : Nat
  guestID   : Nat
  hostID    : Nat
  frameType : Nat
  compType  : Nat
  width     : Nat
  height    : Nat
  stride    : Nat
  mouseX    : Int
  mouseY    : Int
  deriving DecidableEq, Repr

/-- Embedding of `areFormatsSame` (main.c lines 80-90): true iff neither
frameType is INVALID and version, frameType, compType, width and height
all agree.  `stride` is not consulted. -/
def areFormatsSame (s1 s2 : KVMGFXHeader) : Bool :=
  (s1.frameType != FRAME_TYPE_INVALID) &&
  (s2.frameType != FRAME_TYPE_INVALID) &&
  (s1.version   == s2.version  ) &&
  (s1.frameType == s2.frameType) &&
  (s1.compType  == s2.compType ) &&
  (s1.width     == s2.width    ) &&
  (s1.height    == s2.height   )

/-! ### The wait-for-interrupt loop of renderThread

`ivshmem_wait_irq` results (ivshmem.h is an external interface; the three
outcomes OK / TIMEOUT / ERROR are all the client consumes). -/

inductive WaitResult where
  | ok      : WaitResult
  | timeout : WaitResult
  | error   : WaitResult
  deriving DecidableEq, Repr

inductive WaitOutcome where
  | ready   : WaitOutcome
  | failed  : WaitOutcome
  | pending : WaitOutcome
  deriving DecidableEq, Repr

/-- Observable actions of the render loop (ivshmem kicks, SDL and GL
calls).  `renderCopy` and `present` record the frameType of the draw
function issuing them and the GL logic-op blend state in force at that
moment. -/
inductive Event where
  | kick              : Event
  | disableLogicOp    : Event
  | enableLogicOp     : Event
  | updateTexture     : Event
  | updateYUVTexture  : Event
  | renderClear       : Event
  | renderCopy        (ft : Nat) (blend : Bool) : Event
  | present           (ft : Nat) (blend : Bool) : Event
  | unlockTexture     : Event
  | memsetDst         : Event
  | destroyTexture    : Event
  | createTexture     (w h : Nat) : Event
  | setWindowSize     (w h : Nat) : Event
  | setWindowPosition : Event
  | lockTexture       : Event
  | decode            (ct len : Nat) : Event
  deriving DecidableEq, Repr

/-- Embedding of the inner wait loop of renderThread (main.c lines
194-214): consume `ivshmem_wait_irq` results until OK (ready) or ERROR
(failed); every TIMEOUT issues one `ivshmem_kick_irq` to the guest and
waits again.  An exhausted oracle models a wait that is still blocking. -/
def waitLoop : List WaitResult → List Event × WaitOutcome
  | [] => ([], WaitOutcome.pending)
  | WaitResult.ok :: _ => ([], WaitOutcome.ready)
  | WaitResult.error :: _ => ([], WaitOutcome.failed)
  | WaitResult.timeout :: rs =>
    let p := waitLoop rs
    (Event.kick :: p.1, p.2)

/-! ### Compression codecs

Buffers are modelled as total functions from byte offsets to byte
values (an offset-indexed view of the C pointers `dst` and `src`); the
codecs return the list of byte writes they perform (offset, value, in
program order) together with the list of source offsets they read, so
that memory-safety claims can be stated.  `applyWrites` replays a write
list onto a destination buffer. -/

/-- Embedding of `compFunc_NONE` (main.c lines 54-57): `memcpy(dst, src,
len)`, i.e. the first `len` bytes come from `src`, the rest of `dst` is
untouched. -/
def compFunc_NONE (dst src : Nat → Nat) (len : Nat) : Nat → Nat :=
  fun o => if o < len then src o else dst o

/-- Modelled from the spec: `struct RLEHeader` is declared in
KVMGFXHeader.h, which is not under src/.  Per spec section 3 it overlays
the three all-zero bytes of a black pixel unit and carries a `length`
field, so it is modelled as three zero bytes followed by a 16-bit
little-endian length: `sizeof(struct RLEHeader) = 5`. -/
def RLEHeaderSize : Nat := 5

/-- Modelled from the spec: the `length` field of `struct RLEHeader`,
read as a 16-bit little-endian value directly after the three zero bytes
of the run unit at offset `o`. -/
def rleLength (src : Nat → Nat) (o : Nat) : Nat :=
  src (o + 3) + 256 * src (o + 4)

/-- The all-zero test `!src[0] && !src[1] && !src[2]` of
`compFunc_BLACK_RLE` (main.c line 64) on the 3-byte unit at offset `o`. -/
def isZeroUnit (src : Nat → Nat) (o : Nat) : Bool :=
  (src o == 0) && (src (o + 1) == 0) && (src (o + 2) == 0)

/-- Loop body of `compFunc_BLACK_RLE` (main.c lines 62-77).  Arguments:
fuel, destination offset, source offset, pixel counter `i`.  Returns the
writes performed, the source offsets read, and the final value of `i`,
or `none` if the C loop does not finish within the given fuel (the loop
has no progress guarantee when a run header carries length 0). -/
def blackRLEAux (src : Nat → Nat) (pixels : Nat) :
    Nat → Nat → Nat → Nat → Option (List (Nat × Nat) × List Nat × Nat)
  | 0, _, _, i => if pixels ≤ i then some ([], [], i) else none
  | fuel + 1, dstOff, srcOff, i =>
    if pixels ≤ i then some ([], [], i)
    else if isZeroUnit src srcOff then
      match blackRLEAux src pixels fuel (dstOff + 3 * rleLength src srcOff)
          (srcOff + RLEHeaderSize) (i + rleLength src srcOff) with
      | none => none
      | some (w, r, fi) =>
        some (w, srcOff :: (srcOff + 1) :: (srcOff + 2) :: (srcOff + 3) :: (srcOff + 4) :: r, fi)
    else
      match blackRLEAux src pixels fuel (dstOff + 3) (srcOff + 3) (i + 1) with
      | none => none
      | some (w, r, fi) =>
        some ((dstOff, src srcOff) :: (dstOff + 1, src (srcOff + 1)) ::
                (dstOff + 2, src (srcOff + 2)) :: w,
              srcOff :: (srcOff + 1) :: (srcOff + 2) :: r, fi)

/-- Embedding of `compFunc_BLACK_RLE` (main.c lines 59-78): scan
`len / 3` pixel units starting at both offsets 0.  The fuel `len + 1`
suffices for every run of the C loop in which each iteration makes pixel
progress. -/
def compFunc_BLACK_RLE (src : Nat → Nat) (len : Nat) :
    Option (List (Nat × Nat) × List Nat × Nat) :=
  blackRLEAux src (len / 3) (len + 1) 0 0 0

/-- Replay a list of byte writes (in program order) onto a destination
buffer. -/
def applyWrites (w : List (Nat × Nat)) (dst : Nat → Nat) : Nat → Nat :=
  w.foldl (fun d p => Function.update d p.1 p.2) dst

/-! ### renderThread (main.c lines 170-275)

The render loop is embedded as a state machine.  Per iteration the loop
reads a snapshot of the shared-memory header, consumes a finite oracle of
`ivshmem_wait_irq` results, and emits a trace of `Event`s.  `state.running`
is written only by the other threads, so within the model it is constant
during a renderThread invocation. -/

/-- The `switch(state.shm->frameType)` cases of the format negotiator
(main.c lines 232-239): the six recognised frame types. -/
def recognizeFrameType (ft : Nat) : Bool :=
  (ft == FRAME_TYPE_ARGB) || (ft == FRAME_TYPE_RGB) || (ft == FRAME_TYPE_XOR) ||
  (ft == FRAME_TYPE_YUV444P) || (ft == FRAME_TYPE_YUV420P) || (ft == FRAME_TYPE_ARGB10)

/-- The `switch(state.shm->compType)` cases (main.c lines 245-248). -/
def recognizeCompType (ct : Nat) : Bool :=
  (ct == FRAME_COMP_NONE) || (ct == FRAME_COMP_BLACK_RLE)

/-- Effect on the destination buffer of calling the selected `compFunc`
pointer with length `len` (the two codecs of main.c; an unknown tag or a
non-terminating RLE loop leaves the buffer unchanged — neither arises on
the paths the render loop exercises). -/
def applyCompFunc (ct : Nat) (dst src : Nat → Nat) (len : Nat) : Nat → Nat :=
  if ct == FRAME_COMP_NONE then compFunc_NONE dst src len
  else if ct == FRAME_COMP_BLACK_RLE then
    match compFunc_BLACK_RLE src len with
    | some (w, _, _) => applyWrites w dst
    | none => dst
  else dst

/-- Result of one draw-function call: the decode destination buffer, the
GL logic-op blend state on return, and the SDL/GL/ivshmem calls made. -/
structure DrawResult where
  dst : Nat → Nat
  blend : Bool
  events : List Event

/-- Embedding of `drawFunc_ARGB10` (main.c lines 92-101): direct texture
upload from the payload, no codec call. -/
def drawFunc_ARGB10 (h : KVMGFXHeader) (ct : Nat) (dst src : Nat → Nat) (b : Bool) :
    DrawResult :=
  { dst := dst, blend := b,
    events := [Event.updateTexture, Event.kick, Event.renderClear,
               Event.renderCopy FRAME_TYPE_ARGB10 b, Event.present FRAME_TYPE_ARGB10 b] }

/-- Embedding of `drawFunc_ARGB` (main.c lines 103-113): decode
`height * stride * 4` bytes, kick, unlock, clear, copy, present. -/
def drawFunc_ARGB (h : KVMGFXHeader) (ct : Nat) (dst src : Nat → Nat) (b : Bool) :
    DrawResult :=
  { dst := applyCompFunc ct dst src (h.height * h.stride * 4), blend := b,
    events := [Event.decode ct (h.height * h.stride * 4), Event.kick, Event.unlockTexture,
               Event.renderClear, Event.renderCopy FRAME_TYPE_ARGB b,
               Event.present FRAME_TYPE_ARGB b] }

/-- Embedding of `drawFunc_RGB` (main.c lines 115-125): decode
`height * stride * 3` bytes, kick, unlock, clear, copy, present. -/
def drawFunc_RGB (h : KVMGFXHeader) (ct : Nat) (dst src : Nat → Nat) (b : Bool) :
    DrawResult :=
  { dst := applyCompFunc ct dst src (h.height * h.stride * 3), blend := b,
    events := [Event.decode ct (h.height * h.stride * 3), Event.kick, Event.unlockTexture,
               Event.renderClear, Event.renderCopy FRAME_TYPE_RGB b,
               Event.present FRAME_TYPE_RGB b] }

/-- Embedding of `drawFunc_XOR` (main.c lines 127-141): enable the GL
logic-op XOR blend, decode, kick, unlock, copy, present, then
`memset(dst, 0, height * stride * 3)`. -/
def drawFunc_XOR (h : KVMGFXHeader) (ct : Nat) (dst src : Nat → Nat) (b : Bool) :
    DrawResult :=
  { dst := fun o => if o < h.height * h.stride * 3 then 0
             else applyCompFunc ct dst src (h.height * h.stride * 3) o,
    blend := true,
    events := [Event.enableLogicOp, Event.decode ct (h.height * h.stride * 3), Event.kick,
               Event.unlockTexture, Event.renderCopy FRAME_TYPE_XOR true,
               Event.present FRAME_TYPE_XOR true, Event.memsetDst] }

/-- Embedding of `drawFunc_YUV444P` (main.c lines 143-151): decode
`height * stride * 3` bytes, kick, unlock, copy, present (no clear). -/
def drawFunc_YUV444P (h : KVMGFXHeader) (ct : Nat) (dst src : Nat → Nat) (b : Bool) :
    DrawResult :=
  { dst := applyCompFunc ct dst src (h.height * h.stride * 3), blend := b,
    events := [Event.decode ct (h.height * h.stride * 3), Event.kick, Event.unlockTexture,
               Event.renderCopy FRAME_TYPE_YUV444P b, Event.present FRAME_TYPE_YUV444P b] }

/-- Embedding of `drawFunc_YUV420P` (main.c lines 153-168): planar YUV
texture upload from the payload, no codec call. -/
def drawFunc_YUV420P (h : KVMGFXHeader) (ct : Nat) (dst src : Nat → Nat) (b : Bool) :
    DrawResult :=
  { dst := dst, blend := b,
    events := [Event.updateYUVTexture, Event.kick, Event.renderClear,
               Event.renderCopy FRAME_TYPE_YUV420P b, Event.present FRAME_TYPE_YUV420P b] }

/-- Dispatch through the stored `drawFunc` pointer, identified by the
frameType it was selected for (main.c lines 234-239). -/
def runDrawFunc (ft : Nat) (h : KVMGFXHeader) (ct : Nat) (dst src : Nat → Nat) (b : Bool) :
    DrawResult :=
  if ft == FRAME_TYPE_ARGB then drawFunc_ARGB h ct dst src b
  else if ft == FRAME_TYPE_RGB then drawFunc_RGB h ct dst src b
  else if ft == FRAME_TYPE_XOR then drawFunc_XOR h ct dst src b
  else if ft == FRAME_TYPE_YUV444P then drawFunc_YUV444P h ct dst src b
  else if ft == FRAME_TYPE_YUV420P then drawFunc_YUV420P h ct dst src b
  else if ft == FRAME_TYPE_ARGB10 then drawFunc_ARGB10 h ct dst src b
  else { dst := dst, blend := b, events := [] }

/-- State of renderThread: its local variables (`format`, `texture`,
`drawFunc`, `compFunc`, the pre-fetched texture pixel pointer `dst`)
together with the globals it touches (`running`, `started`,
`windowChanged`) and the GL logic-op blend state. -/
structure RenderState where
  format : KVMGFXHeader
  texture : Bool
  drawFunc : Option Nat
  compFunc : Option Nat
  dst : Nat → Nat
  blend : Bool
  running : Bool
  started : Bool
  windowChanged : Bool

/-- Per-iteration oracle: the shared-memory header snapshot, the results
`ivshmem_wait_irq` will deliver this iteration, the frame payload at
`state.shm + 1`, and the fresh pixel buffer `SDL_LockTexture` would hand
out if a texture is (re)created. -/
structure IterInput where
  header : KVMGFXHeader
  waits : List WaitResult
  payload : Nat → Nat
  newBuf : Nat → Nat

/-- Embedding of the format negotiation block (main.c lines 223-266).
Returns false when the iteration defers via `continue` (unrecognised
frameType or compType), true when decoding may proceed. -/
def negotiate (st : RenderState) (h : KVMGFXHeader) (newBuf : Nat → Nat) :
    Bool × RenderState × List Event :=
  if areFormatsSame st.format h then (true, st, [])
  else
    let p := if st.texture then ({ st with texture := false }, [Event.destroyTexture])
             else (st, ([] : List Event))
    if recognizeFrameType h.frameType then
      let st2 := { p.1 with drawFunc := some h.frameType }
      if recognizeCompType h.compType then
        (true,
         { st2 with compFunc := some h.compType, texture := true, dst := newBuf,
                    format := h, windowChanged := true },
         p.2 ++ [Event.setWindowSize h.width h.height, Event.setWindowPosition,
                 Event.createTexture h.width h.height, Event.lockTexture])
      else
        (false, { st2 with format := { st2.format with frameType := FRAME_TYPE_INVALID } }, p.2)
    else
      (false, { p.1 with format := { p.1.format with frameType := FRAME_TYPE_INVALID } }, p.2)

inductive IterOut where
  | cont  : IterOut
  | brk   : IterOut
  | stuck : IterOut
  deriving DecidableEq, Repr

/-- One iteration of the outer `while(state.running)` loop of
renderThread (main.c lines 185-271): magic and version guards, the wait
loop, format negotiation, `glDisable(GL_COLOR_LOGIC_OP)`, the draw-function
call, and `state.started = true`. -/
def renderIter (st : RenderState) (inp : IterInput) : IterOut × RenderState × List Event :=
  if inp.header.magic ≠ KVMGFX_HEADER_MAGIC then (IterOut.cont, st, [])
  else if inp.header.version ≠ 2 then (IterOut.cont, st, [])
  else
    match waitLoop inp.waits with
    | (kicks, WaitOutcome.failed) => (IterOut.brk, st, kicks)
    | (kicks, WaitOutcome.pending) => (IterOut.stuck, st, kicks)
    | (kicks, WaitOutcome.ready) =>
      match negotiate st inp.header inp.newBuf with
      | (false, st1, evs) => (IterOut.cont, st1, kicks ++ evs)
      | (true, st1, evs) =>
        match st1.drawFunc with
        | none => (IterOut.cont, { st1 with blend := false, started := true },
                   kicks ++ evs ++ [Event.disableLogicOp])
        | some ft =>
          let dr := runDrawFunc ft inp.header (st1.compFunc.getD 0) st1.dst inp.payload false
          (IterOut.cont,
           { st1 with blend := dr.blend, dst := dr.dst, started := true },
           kicks ++ evs ++ [Event.disableLogicOp] ++ dr.events)

/-- The outer loop of renderThread over a finite iteration oracle.  The
Bool records whether the loop was left through the wait-error `break`
(main.c lines 216-220); the trailing `SDL_DestroyTexture` of line 273
runs whenever the call returns. -/
def renderLoop (st : RenderState) : List IterInput → RenderState × List Event × Bool
  | [] => (st, [], false)
  | inp :: rest =>
    if st.running then
      match renderIter st inp with
      | (IterOut.cont, st1, evs) =>
        let r := renderLoop st1 rest
        (r.1, evs ++ r.2.1, r.2.2)
      | (IterOut.brk, st1, evs) => (st1, evs ++ [Event.destroyTexture], true)
      | (IterOut.stuck, st1, evs) => (st1, evs, false)
    else (st, [Event.destroyTexture], false)

/-- Embedding of `while(state.running) renderThread(NULL);` in main
(main.c lines 574-575): repeatedly invoke the render loop while the
running flag is set, counting the invocations. -/
def mainRenderLoop : Nat → RenderState → (Nat → List IterInput) → Nat × RenderState
  | 0, st, _ => (0, st)
  | fuel + 1, st, oracle =>
    if st.running then
      let r := renderLoop st (oracle 0)
      let rest := mainRenderLoop fuel r.1 (fun n => oracle (n + 1))
      (rest.1 + 1, rest.2)
    else (0, st)

/-- The initial `format` local of renderThread (main.c lines 179-183):
version 1, frameType INVALID, zero geometry.  `compType` and the other
fields are uninitialised in C; they are modelled as zero — the first
`areFormatsSame` comparison short-circuits on the INVALID frameType, so
they are never read before the struct is overwritten. -/
def initFormat : KVMGFXHeader :=
  { magic := [], version := 1, guestID := 0, hostID := 0,
    frameType := FRAME_TYPE_INVALID, compType := 0,
    width := 0, height := 0, stride := 0, mouseX := 0, mouseY := 0 }

/-- renderThread state on entry (locals of main.c lines 172-183 plus the
globals zeroed in main and `state.running = true`). -/
def initRenderState (dst0 : Nat → Nat) : RenderState :=
  { format := initFormat, texture := false, drawFunc := none, compFunc := none,
    dst := dst0, blend := false, running := true, started := false,
    windowChanged := false }

def isDecodeEvent : Event → Bool
  | Event.decode _ _ => true
  | _ => false

def isPresentEvent : Event → Bool
  | Event.present _ _ => true
  | _ => false

def isCreateEvent : Event → Bool
  | Event.createTexture _ _ => true
  | _ => false

/-- An event respects the blend discipline when, if it is a compositing
or present call, its recorded GL logic-op blend state is on exactly for
the XOR draw function. -/
def eventBlendOK : Event → Bool
  | Event.present ft bl => bl == (ft == FRAME_TYPE_XOR)
  | Event.renderCopy ft bl => bl == (ft == FRAME_TYPE_XOR)
  | _ => true

/-- The reachable cached formats of renderThread: either INVALID or a
header that was accepted by both negotiation switches. -/
def goodCache (st : RenderState) : Prop :=
  st.format.frameType = FRAME_TYPE_INVALID ∨
  (recognizeFrameType st.format.frameType = true ∧
   recognizeCompType st.format.compType = true)

/-- An iteration input that either fails the magic/version guards or
delivers a ready frame whose header the negotiator does not recognise. -/
def skipOrBadIter (inp : IterInput) : Prop :=
  inp.header.magic ≠ KVMGFX_HEADER_MAGIC ∨ inp.header.version ≠ 2 ∨
  ((waitLoop inp.waits).2 = WaitOutcome.ready ∧
   (recognizeFrameType inp.header.frameType = false ∨
    recognizeCompType inp.header.compType = false))

/-- A concrete valid RGB/NONE header for evaluation theorems. -/
def validHdr : KVMGFXHeader :=
  { magic := KVMGFX_HEADER_MAGIC, version := 2, guestID := 0, hostID := 0,
    frameType := FRAME_TYPE_RGB, compType := FRAME_COMP_NONE,
    width := 4, height := 4, stride := 4, mouseX := 0, mouseY := 0 }

/-- A concrete iteration whose wait primitive reports a transport error. -/
def errInput : IterInput :=
  { header := validHdr, waits := [WaitResult.error],
    payload := fun _ => 0, newBuf := fun _ => 0 }

/-- A concrete initial render state. -/
def rst0 : RenderState := initRenderState (fun _ => 0)

/-! ### eventThread (main.c lines 321-485)

The event pump is embedded per polled SDL event: given the globals it
reads (`running`, `started`, `windowChanged`, the guest-reported mouse
position in the shared header) and its locals (`serverMode`, `mouseX`,
`mouseY`, `init`), processing one event yields the new globals and
locals plus the trace of spice-protocol calls and local SDL cursor
actions it performs. -/

/-- The SDL2 scancode of the Scroll Lock key (SDL_scancode.h). -/
def SDL_SCANCODE_SCROLLLOCK : Nat := 71

inductive SDLEvent where
  | quit            : SDLEvent
  | keyDown         (sc : Nat) (rp : Bool) : SDLEvent
  | keyUp           (sc : Nat) : SDLEvent
  | mouseWheel      (y : Int) : SDLEvent
  | mouseMotion     (x y xrel yrel : Int) : SDLEvent
  | mouseButtonDown (x y : Int) (button : Nat) : SDLEvent
  | mouseButtonUp   (x y : Int) (button : Nat) : SDLEvent
  | other           : SDLEvent
  deriving DecidableEq, Repr

/-- The remote-display (spice) protocol calls the forwarder can make. -/
inductive SpiceCall where
  | mouseMode     (server : Bool) : SpiceCall
  | keyDown       (code : Nat) : SpiceCall
  | keyUp         (code : Nat) : SpiceCall
  | mousePress    (button : Nat) : SpiceCall
  | mouseRelease  (button : Nat) : SpiceCall
  | mouseMotion   (dx dy : Int) : SpiceCall
  | mousePosition (x y : Int) : SpiceCall
  deriving DecidableEq, Repr

/-- One observable action of the event thread: a spice call or a local
SDL cursor action. -/
inductive Act where
  | spice                (c : SpiceCall) : Act
  | warpMouse            (x y : Int) : Act
  | setRelativeMouseMode (b : Bool) : Act
  deriving DecidableEq, Repr

/-- Embedding of `mapScancode` (main.c lines 310-319).  The guard is the
code's own `scancode > sizeof(usb_to_ps2)/sizeof(uint32_t)`; within the
guard the table entry is read (modelled with `getD`, since the table
contents — kb.h, not under src/ — are out of scope per the spec). -/
def mapScancode (usb_to_ps2 : List Nat) (scancode : Nat) : Nat :=
  if scancode > usb_to_ps2.length then 0
  else if usb_to_ps2.getD scancode 0 == 0 then 0
  else usb_to_ps2.getD scancode 0

/-- The table indices `mapScancode` dereferences for a given scancode:
none when the guard rejects it, otherwise exactly `usb_to_ps2[scancode]`
(main.c line 313). -/
def mapScancodeIndices (usb_to_ps2 : List Nat) (scancode : Nat) : List Nat :=
  if scancode > usb_to_ps2.length then [] else [scancode]

/-- Locals of eventThread (main.c lines 323-326). -/
structure EventLocals where
  serverMode : Bool
  mouseX     : Int
  mouseY     : Int
  haveInit   : Bool
  deriving DecidableEq, Repr

/-- The globals eventThread touches: the running/started/windowChanged
flags and the guest-reported absolute mouse position read from
`state.shm`. -/
structure EventGlobals where
  running       : Bool
  started       : Bool
  windowChanged : Bool
  shmMouseX     : Int
  shmMouseY     : Int
  deriving DecidableEq, Repr

/-- Embedding of the body of the inner `while(SDL_PollEvent(&event))`
loop of eventThread (main.c lines 334-479) for one event.  `tbl` is the
`usb_to_ps2` table, `sok` tells whether a given spice call succeeds.  The
trace records every spice call attempted (successful or not) and every
local cursor action, in program order. -/
def processEvent (tbl : List Nat) (sok : SpiceCall → Bool)
    (g : EventGlobals) (es : EventLocals) (ev : SDLEvent) :
    EventGlobals × EventLocals × List Act :=
  if ev = SDLEvent.quit then ({ g with running := false }, es, [])
  else if g.started = false then (g, es, [])
  else
    let p1 :=
      if es.haveInit = false then
        ({ es with mouseX := g.shmMouseX, mouseY := g.shmMouseY, haveInit := true },
         [Act.spice (SpiceCall.mouseMode false), Act.warpMouse g.shmMouseX g.shmMouseY])
      else (es, ([] : List Act))
    let p2 :=
      if g.windowChanged then
        (({ g with windowChanged := false },
          { p1.1 with mouseX := g.shmMouseX, mouseY := g.shmMouseY }),
         [Act.warpMouse g.shmMouseX g.shmMouseY])
      else ((g, p1.1), ([] : List Act))
    let g1 := p2.1.1
    let es2 := p2.1.2
    let pre := p1.2 ++ p2.2
    match ev with
    | SDLEvent.keyDown sc rp =>
      if sc = SDL_SCANCODE_SCROLLLOCK then
        if rp then (g1, es2, pre)
        else
          let sm := !es2.serverMode
          let acts := [Act.spice (SpiceCall.mouseMode sm), Act.setRelativeMouseMode sm]
          if sm then (g1, { es2 with serverMode := sm }, pre ++ acts)
          else
            (g1,
             { es2 with serverMode := sm, mouseX := g1.shmMouseX, mouseY := g1.shmMouseY },
             pre ++ acts ++ [Act.warpMouse g1.shmMouseX g1.shmMouseY])
      else
        let code := mapScancode tbl sc
        if code = 0 then (g1, es2, pre)
        else (g1, es2, pre ++ [Act.spice (SpiceCall.keyDown code)])
    | SDLEvent.keyUp sc =>
      if sc = SDL_SCANCODE_SCROLLLOCK then (g1, es2, pre)
      else
        let code := mapScancode tbl sc
        if code = 0 then (g1, es2, pre)
        else (g1, es2, pre ++ [Act.spice (SpiceCall.keyUp code)])
    | SDLEvent.mouseWheel y =>
      let b : Nat := if y = 1 then 4 else 5
      if sok (SpiceCall.mousePress b) then
        (g1, es2, pre ++ [Act.spice (SpiceCall.mousePress b),
                          Act.spice (SpiceCall.mouseRelease b)])
      else (g1, es2, pre ++ [Act.spice (SpiceCall.mousePress b)])
    | SDLEvent.mouseMotion x y xrel yrel =>
      let c := if es2.serverMode then SpiceCall.mouseMotion xrel yrel
               else SpiceCall.mouseMotion (x - es2.mouseX) (y - es2.mouseY)
      if sok c then (g1, { es2 with mouseX := x, mouseY := y }, pre ++ [Act.spice c])
      else (g1, es2, pre ++ [Act.spice c])
    | SDLEvent.mouseButtonDown x y btn =>
      if sok (SpiceCall.mousePosition x y) then
        if sok (SpiceCall.mousePress btn) then
          (g1, { es2 with mouseX := x, mouseY := y },
           pre ++ [Act.spice (SpiceCall.mousePosition x y),
                   Act.spice (SpiceCall.mousePress btn)])
        else
          (g1, es2,
           pre ++ [Act.spice (SpiceCall.mousePosition x y),
                   Act.spice (SpiceCall.mousePress btn)])
      else (g1, es2, pre ++ [Act.spice (SpiceCall.mousePosition x y)])
    | SDLEvent.mouseButtonUp x y btn =>
      if sok (SpiceCall.mousePosition x y) then
        if sok (SpiceCall.mouseRelease btn) then
          (g1, { es2 with mouseX := x, mouseY := y },
           pre ++ [Act.spice (SpiceCall.mousePosition x y),
                   Act.spice (SpiceCall.mouseRelease btn)])
        else
          (g1, es2,
           pre ++ [Act.spice (SpiceCall.mousePosition x y),
                   Act.spice (SpiceCall.mouseRelease btn)])
      else (g1, es2, pre ++ [Act.spice (SpiceCall.mousePosition x y)])
    | _ => (g1, es2, pre)

/-- True for the spice calls that forward a key press or release. -/
def isKeyAct : Act → Bool
  | Act.spice (SpiceCall.keyDown _) => true
  | Act.spice (SpiceCall.keyUp _) => true
  | _ => false

/-! ### Claims C2 and C5 -/

/-- C2: `areFormatsSame s1 s2` returns true iff neither frameType is
INVALID and version, frameType, compType, width and height are pairwise
equal; it returns false whenever either header has frameType INVALID, and
it returns true for headers that differ only in stride when the shared
frameType is valid. -/
theorem areFormatsSame_characterisation :
    ∀ s1 s2 : KVMGFXHeader,
      (areFormatsSame s1 s2 = true ↔
        (s1.frameType ≠ FRAME_TYPE_INVALID ∧ s2.frameType ≠ FRAME_TYPE_INVALID ∧
         s1.version = s2.version ∧ s1.frameType = s2.frameType ∧
         s1.compType = s2.compType ∧ s1.width = s2.width ∧ s1.height = s2.height)) ∧
      ((s1.frameType = FRAME_TYPE_INVALID ∨ s2.frameType = FRAME_TYPE_INVALID) →
        areFormatsSame s1 s2 = false) ∧
      (∀ st : Nat, s1.frameType ≠ FRAME_TYPE_INVALID →
        areFormatsSame s1 { s1 with stride := st } = true) := by
  intro s1 s2
  refine ⟨?_, ?_, ?_⟩
  · simp [areFormatsSame, Bool.and_eq_true, bne_iff_ne, beq_iff_eq, and_assoc]
  · intro h
    rcases h with h | h <;> simp [areFormatsSame, h]
  · intro st h
    simp [areFormatsSame, h]

/-- Witness for C2 at concrete headers: two headers that differ only in
stride, with a valid shared frameType, compare equal; forcing either
frameType to INVALID makes the comparison false. -/
theorem areFormatsSame_characterisation_witness :
    (areFormatsSame
      { magic := KVMGFX_HEADER_MAGIC, version := 2, guestID := 0, hostID := 0,
        frameType := FRAME_TYPE_RGB, compType := FRAME_COMP_NONE,
        width := 640, height := 480, stride := 640, mouseX := 0, mouseY := 0 }
      { magic := KVMGFX_HEADER_MAGIC, version := 2, guestID := 0, hostID := 0,
        frameType := FRAME_TYPE_RGB, compType := FRAME_COMP_NONE,
        width := 640, height := 480, stride := 1024, mouseX := 0, mouseY := 0 } = true) ∧
    (areFormatsSame
      { magic := KVMGFX_HEADER_MAGIC, version := 2, guestID := 0, hostID := 0,
        frameType := FRAME_TYPE_INVALID, compType := FRAME_COMP_NONE,
        width := 640, height := 480, stride := 640, mouseX := 0, mouseY := 0 }
      { magic := KVMGFX_HEADER_MAGIC, version := 2, guestID := 0, hostID := 0,
        frameType := FRAME_TYPE_INVALID, compType := FRAME_COMP_NONE,
        width := 640, height := 480, stride := 640, mouseX := 0, mouseY := 0 } = false) := by
  constructor
  · have h := (areFormatsSame_characterisation
      { magic := KVMGFX_HEADER_MAGIC, version := 2, guestID := 0, hostID := 0,
        frameType := FRAME_TYPE_RGB, compType := FRAME_COMP_NONE,
        width := 640, height := 480, stride := 640, mouseX := 0, mouseY := 0 }
      { magic := KVMGFX_HEADER_MAGIC, version := 2, guestID := 0, hostID := 0,
        frameType := FRAME_TYPE_RGB, compType := FRAME_COMP_NONE,
        width := 640, height := 480, stride := 1024, mouseX := 0, mouseY := 0 }).1
    exact h.mpr (by refine ⟨?_, ?_, rfl, rfl, rfl, rfl, rfl⟩ <;> decide)
  · have h := (areFormatsSame_characterisation
      { magic := KVMGFX_HEADER_MAGIC, version := 2, guestID := 0, hostID := 0,
        frameType := FRAME_TYPE_INVALID, compType := FRAME_COMP_NONE,
        width := 640, height := 480, stride := 640, mouseX := 0, mouseY := 0 }
      { magic := KVMGFX_HEADER_MAGIC, version := 2, guestID := 0, hostID := 0,
        frameType := FRAME_TYPE_INVALID, compType := FRAME_COMP_NONE,
        width := 640, height := 480, stride := 640, mouseX := 0, mouseY := 0 }).2.1
    exact h (Or.inl rfl)

/-- C5: in the wait loop, every timeout result causes exactly one kick
interrupt to the guest before waiting again, and a ready result ends the
loop without an extra kick; hence for n timeouts followed by OK the loop
emits exactly n kicks and reports ready, and in particular exactly three
kicks for three timeouts. -/
theorem waitLoop_timeout_kicks :
    (∀ (n : Nat) (rs : List WaitResult),
        waitLoop (List.replicate n WaitResult.timeout ++ WaitResult.ok :: rs)
          = (List.replicate n Event.kick, WaitOutcome.ready)) ∧
    waitLoop [WaitResult.timeout, WaitResult.timeout, WaitResult.timeout, WaitResult.ok]
      = ([Event.kick, Event.kick, Event.kick], WaitOutcome.ready) := by
  constructor
  · intro n rs
    induction n with
    | zero => simp [waitLoop]
    | succ k ih => simp [List.replicate_succ, waitLoop, ih]
  · rfl

/-! ### Codec lemmas and claims C1, C10 -/

theorem applyWrites_cons (p : Nat × Nat) (w : List (Nat × Nat)) (dst : Nat → Nat) :
    applyWrites (p :: w) dst = applyWrites w (Function.update dst p.1 p.2) := rfl

/-- Once the pixel counter has reached `pixels`, the loop stops at once. -/
theorem blackRLEAux_done (src : Nat → Nat) (pixels fuel dstOff srcOff i : Nat)
    (h : pixels ≤ i) :
    blackRLEAux src pixels fuel dstOff srcOff i = some ([], [], i) := by
  cases fuel <;> simp [blackRLEAux, h]

/-- On a payload with no all-zero unit from pixel `i` on, the loop copies
each remaining unit verbatim: it terminates with counter `pixels` and its
writes replay exactly the source bytes `3 * i` to `3 * pixels - 1`. -/
theorem blackRLEAux_copy (src : Nat → Nat) (pixels : Nat) :
    ∀ (fuel i : Nat) (dst : Nat → Nat),
      i ≤ pixels → pixels ≤ i + fuel →
      (∀ u, i ≤ u → u < pixels → isZeroUnit src (3 * u) = false) →
      ∃ w r, blackRLEAux src pixels fuel (3 * i) (3 * i) i = some (w, r, pixels) ∧
        ∀ o, applyWrites w dst o = if 3 * i ≤ o ∧ o < 3 * pixels then src o else dst o := by
  intro fuel
  induction fuel with
  | zero =>
    intro i dst hle hfuel _
    have hip : i = pixels := by omega
    refine ⟨[], [], ?_, ?_⟩
    · rw [blackRLEAux_done src pixels 0 (3 * i) (3 * i) i (by omega), hip]
    · intro o
      have hno : ¬ (3 * i ≤ o ∧ o < 3 * pixels) := by omega
      simp only [applyWrites, List.foldl_nil, if_neg hno]
  | succ fuel ih =>
    intro i dst hle hfuel hunits
    by_cases hdone : pixels ≤ i
    · have hip : i = pixels := by omega
      refine ⟨[], [], ?_, ?_⟩
      · rw [blackRLEAux_done src pixels (fuel + 1) (3 * i) (3 * i) i (by omega), hip]
      · intro o
        have hno : ¬ (3 * i ≤ o ∧ o < 3 * pixels) := by omega
        simp only [applyWrites, List.foldl_nil, if_neg hno]
    · have hi : i < pixels := by omega
      have hz : isZeroUnit src (3 * i) = false := hunits i le_rfl hi
      set dst1 : Nat → Nat :=
        Function.update (Function.update (Function.update dst (3 * i) (src (3 * i)))
          (3 * i + 1) (src (3 * i + 1))) (3 * i + 2) (src (3 * i + 2)) with hdst1
      have hupd : ∀ o, dst1 o =
          if o = 3 * i ∨ o = 3 * i + 1 ∨ o = 3 * i + 2 then src o else dst o := by
        intro o
        by_cases h2 : o = 3 * i + 2
        · subst h2; simp [hdst1, Function.update]
        · by_cases h1 : o = 3 * i + 1
          · subst h1; simp [hdst1, Function.update]
          · by_cases h0 : o = 3 * i
            · subst h0; simp [hdst1, Function.update, h1, h2]
            · simp [hdst1, Function.update, h0, h1, h2]
      obtain ⟨w, r, heq, hval⟩ := ih (i + 1) dst1 (by omega) (by omega)
        (fun u hu hu2 => hunits u (by omega) hu2)
      have h31 : 3 * (i + 1) = 3 * i + 3 := by ring
      rw [h31] at heq
      refine ⟨(3 * i, src (3 * i)) :: (3 * i + 1, src (3 * i + 1)) ::
        (3 * i + 2, src (3 * i + 2)) :: w,
        (3 * i) :: (3 * i + 1) :: (3 * i + 2) :: r, ?_, ?_⟩
      · simp only [blackRLEAux, hdone, if_false, hz, Bool.false_eq_true, heq]
      · intro o
        rw [applyWrites_cons, applyWrites_cons, applyWrites_cons]
        have hmatch : Function.update (Function.update (Function.update dst (3 * i) (src (3 * i)))
            (3 * i + 1) (src (3 * i + 1))) (3 * i + 2) (src (3 * i + 2)) = dst1 := by
          rw [hdst1]
        rw [hmatch, hval o, hupd o]
        by_cases hin : o = 3 * i ∨ o = 3 * i + 1 ∨ o = 3 * i + 2
        · have hn1 : ¬ (3 * (i + 1) ≤ o ∧ o < 3 * pixels) := by omega
          have hy : 3 * i ≤ o ∧ o < 3 * pixels := by omega
          simp [hn1, hy, hin]
        · by_cases hge : 3 * (i + 1) ≤ o ∧ o < 3 * pixels
          · have hy : 3 * i ≤ o ∧ o < 3 * pixels := by omega
            simp [hge, hy]
          · have hn : ¬ (3 * i ≤ o ∧ o < 3 * pixels) := by omega
            simp [hge, hn, hin]

/-- C1 (amended): a run header of length N advances the pixel counter by
N and the destination offset by 3N while contributing no writes; a
non-zero unit contributes exactly its 3 bytes and advances by 1 pixel;
and on a payload with no all-zero unit the codec terminates, writes
exactly the same bytes as `compFunc_NONE` on the `3 * (len / 3)` bytes
it processes, and writes nothing beyond them — so when `len` is a
multiple of 3 the destination contents agree with `compFunc_NONE`
everywhere. -/
theorem compFunc_BLACK_RLE_vs_NONE :
    (∀ (src : Nat → Nat) (pixels fuel dstOff srcOff i : Nat)
        (w : List (Nat × Nat)) (r : List Nat) (fi : Nat),
      i < pixels → isZeroUnit src srcOff = true →
      blackRLEAux src pixels fuel (dstOff + 3 * rleLength src srcOff)
          (srcOff + RLEHeaderSize) (i + rleLength src srcOff) = some (w, r, fi) →
      ∃ r2, blackRLEAux src pixels (fuel + 1) dstOff srcOff i = some (w, r2, fi)) ∧
    (∀ (src : Nat → Nat) (pixels fuel dstOff srcOff i : Nat)
        (w : List (Nat × Nat)) (r : List Nat) (fi : Nat),
      i < pixels → isZeroUnit src srcOff = false →
      blackRLEAux src pixels fuel (dstOff + 3) (srcOff + 3) (i + 1) = some (w, r, fi) →
      ∃ r2, blackRLEAux src pixels (fuel + 1) dstOff srcOff i
        = some ((dstOff, src srcOff) :: (dstOff + 1, src (srcOff + 1)) ::
            (dstOff + 2, src (srcOff + 2)) :: w, r2, fi)) ∧
    (∀ (src : Nat → Nat) (len : Nat) (dst : Nat → Nat),
      (∀ u, u < len / 3 → isZeroUnit src (3 * u) = false) →
      ∃ w r, compFunc_BLACK_RLE src len = some (w, r, len / 3) ∧
        (∀ o, o < 3 * (len / 3) → applyWrites w dst o = compFunc_NONE dst src len o) ∧
        (∀ o, 3 * (len / 3) ≤ o → applyWrites w dst o = dst o) ∧
        (len % 3 = 0 → ∀ o, applyWrites w dst o = compFunc_NONE dst src len o)) := by
  refine ⟨?_, ?_, ?_⟩
  · intro src pixels fuel dstOff srcOff i w r fi hi hz hrec
    have hnd : ¬ pixels ≤ i := by omega
    refine ⟨srcOff :: (srcOff + 1) :: (srcOff + 2) :: (srcOff + 3) :: (srcOff + 4) :: r, ?_⟩
    simp only [blackRLEAux, hnd, if_false, hz, if_true, hrec]
  · intro src pixels fuel dstOff srcOff i w r fi hi hz hrec
    have hnd : ¬ pixels ≤ i := by omega
    refine ⟨srcOff :: (srcOff + 1) :: (srcOff + 2) :: r, ?_⟩
    simp only [blackRLEAux, hnd, if_false, hz, Bool.false_eq_true, hrec]
  · intro src len dst hunits
    obtain ⟨w, r, heq, hval⟩ := blackRLEAux_copy src (len / 3) (len + 1) 0 dst
      (Nat.zero_le _) (by have := Nat.div_le_self len 3; omega)
      (fun u _ hu2 => hunits u hu2)
    have h30 : 3 * 0 = 0 := by ring
    rw [h30] at heq
    refine ⟨w, r, heq, ?_, ?_, ?_⟩
    · intro o ho
      have hlen : 3 * (len / 3) ≤ len := by
        have := Nat.div_mul_le_self len 3; omega
      have holen : o < len := by omega
      rw [hval o, if_pos ⟨by omega, ho⟩]
      rw [compFunc_NONE, if_pos holen]
    · intro o ho
      rw [hval o, if_neg (by omega : ¬ (3 * 0 ≤ o ∧ o < 3 * (len / 3)))]
    · intro hmod o
      have hdvd : 3 * (len / 3) = len := by
        have := Nat.div_mul_cancel (Nat.dvd_of_mod_eq_zero hmod)
        omega
      by_cases ho : o < len
      · rw [hval o, if_pos (⟨by omega, by omega⟩ : 3 * 0 ≤ o ∧ o < 3 * (len / 3))]
        rw [compFunc_NONE, if_pos ho]
      · rw [hval o, if_neg (by omega : ¬ (3 * 0 ≤ o ∧ o < 3 * (len / 3)))]
        rw [compFunc_NONE, if_neg ho]

/-- Witness for C1: on the zero-free payload `o % 3 + 1` of length 6 the
codec terminates with counter `6 / 3` and reproduces `compFunc_NONE`
byte for byte. -/
theorem compFunc_BLACK_RLE_vs_NONE_witness :
    ∃ w r, compFunc_BLACK_RLE (fun o => o % 3 + 1) 6 = some (w, r, 6 / 3) ∧
      ∀ o, applyWrites w (fun _ => 0) o
        = compFunc_NONE (fun _ => 0) (fun o => o % 3 + 1) 6 o := by
  obtain ⟨w, r, heq, _, _, hall⟩ := compFunc_BLACK_RLE_vs_NONE.2.2
    (fun o => o % 3 + 1) 6 (fun _ => 0)
    (by
      intro u hu
      have : u = 0 ∨ u = 1 := by omega
      rcases this with h | h <;> subst h <;> rfl)
  exact ⟨w, r, heq, hall rfl⟩

/-- Counterexample for C1 as frozen: at `len = 4` the payload `1,1,1,1`
contains no all-zero 3-byte unit, yet `compFunc_BLACK_RLE` writes only
the first 3 bytes, so byte 3 of the destination (here initially 7)
differs from the byte-for-byte copy `compFunc_NONE` produces (1). -/
theorem compFunc_BLACK_RLE_vs_NONE_counterexample :
    isZeroUnit (fun _ => 1) (3 * 0) = false ∧ 4 / 3 = 1 ∧
    compFunc_BLACK_RLE (fun _ => 1) 4 = some ([(0, 1), (1, 1), (2, 1)], [0, 1, 2], 1) ∧
    applyWrites [(0, 1), (1, 1), (2, 1)] (fun _ => 7) 3 = 7 ∧
    compFunc_NONE (fun _ => 7) (fun _ => 1) 4 3 = 1 ∧ (7 : Nat) ≠ 1 := by
  refine ⟨rfl, rfl, rfl, rfl, rfl, by decide⟩

/-- All writes of the RLE loop stay strictly below
`dstOff + 3 * (pixels - i)`: the destination offset tracks the pixel
counter, and a byte is only written while the counter is below
`pixels`. -/
theorem blackRLEAux_writes_bounded (src : Nat → Nat) (pixels : Nat) :
    ∀ (fuel dstOff srcOff i : Nat) (w : List (Nat × Nat)) (r : List Nat) (fi : Nat),
      blackRLEAux src pixels fuel dstOff srcOff i = some (w, r, fi) →
      ∀ p ∈ w, p.1 < dstOff + 3 * (pixels - i) := by
  intro fuel
  induction fuel with
  | zero =>
    intro dstOff srcOff i w r fi h p hp
    by_cases hd : pixels ≤ i
    · simp [blackRLEAux, hd] at h
      rcases h with ⟨hw, _, _⟩
      subst hw
      simp at hp
    · simp [blackRLEAux, hd] at h
  | succ fuel ih =>
    intro dstOff srcOff i w r fi h p hp
    by_cases hd : pixels ≤ i
    · simp [blackRLEAux, hd] at h
      rcases h with ⟨hw, _, _⟩
      subst hw
      simp at hp
    · have hi : i < pixels := by omega
      by_cases hz : isZeroUnit src srcOff = true
      · simp only [blackRLEAux, hd, if_false, hz, if_true] at h
        rcases hrec : blackRLEAux src pixels fuel (dstOff + 3 * rleLength src srcOff)
            (srcOff + RLEHeaderSize) (i + rleLength src srcOff) with _ | ⟨w2, r2, fi2⟩
        · rw [hrec] at h; simp at h
        · rw [hrec] at h
          simp only [Option.some.injEq, Prod.mk.injEq] at h
          rcases h with ⟨hw, _, _⟩
          subst hw
          by_cases hov : pixels ≤ i + rleLength src srcOff
          · rw [blackRLEAux_done src pixels fuel _ _ _ hov] at hrec
            simp only [Option.some.injEq, Prod.mk.injEq] at hrec
            rcases hrec with ⟨hw2, _, _⟩
            rw [← hw2] at hp
            simp at hp
          · have := ih _ _ _ _ _ _ hrec p hp
            omega
      · have hz2 : isZeroUnit src srcOff = false := by
          cases hb : isZeroUnit src srcOff
          · rfl
          · exact absurd hb hz
        simp only [blackRLEAux, hd, if_false, hz2, Bool.false_eq_true] at h
        rcases hrec : blackRLEAux src pixels fuel (dstOff + 3) (srcOff + 3) (i + 1) with
          _ | ⟨w2, r2, fi2⟩
        · rw [hrec] at h; simp at h
        · rw [hrec] at h
          simp only [Option.some.injEq, Prod.mk.injEq] at h
          rcases h with ⟨hw, _, _⟩
          subst hw
          simp only [List.mem_cons] at hp
          rcases hp with hp | hp | hp | hp
          · subst hp; simp; omega
          · subst hp; simp; omega
          · subst hp; simp; omega
          · have := ih _ _ _ _ _ _ hrec p hp
            omega

/-- C10 (amended): whenever `compFunc_BLACK_RLE` terminates, every byte
it writes lands strictly inside `[dst, dst + 3 * (len / 3))`, hence
inside `[dst, dst + len)`.  (The companion counterexample shows that the
read offsets and the pixel counter are, by contrast, not bounded by the
payload.) -/
theorem compFunc_BLACK_RLE_write_bounds :
    ∀ (src : Nat → Nat) (len : Nat) (w : List (Nat × Nat)) (r : List Nat) (fi : Nat),
      compFunc_BLACK_RLE src len = some (w, r, fi) →
      ∀ p ∈ w, p.1 < 3 * (len / 3) ∧ p.1 < len := by
  intro src len w r fi h p hp
  have hb := blackRLEAux_writes_bounded src (len / 3) (len + 1) 0 0 0 w r fi h p hp
  have hlen : 3 * (len / 3) ≤ len := by
    have := Nat.div_mul_le_self len 3; omega
  constructor
  · omega
  · omega

/-- Witness for C10: the single write list of a concrete terminating run
is bounded by the payload length. -/
theorem compFunc_BLACK_RLE_write_bounds_witness :
    compFunc_BLACK_RLE (fun _ => 1) 3 = some ([(0, 1), (1, 1), (2, 1)], [0, 1, 2], 1) ∧
    (0 : Nat) < 3 * (3 / 3) ∧ (0 : Nat) < 3 := by
  refine ⟨rfl, ?_⟩
  exact compFunc_BLACK_RLE_write_bounds (fun _ => 1) 3
    [(0, 1), (1, 1), (2, 1)] [0, 1, 2] 1 rfl (0, 1) (by decide)

/-- Counterexample for C10 as frozen: a zero unit at the end of a 3-byte
payload makes the codec read the two run-length bytes at offsets 3 and 4,
outside `[src, src + 3)`; and a run length larger than the remaining
pixel count (payload `0,0,0,5,0,9` with `len = 6`) drives the pixel
counter to 5, beyond `len / 3 = 2`. -/
theorem compFunc_BLACK_RLE_oob_counterexample :
    compFunc_BLACK_RLE (fun o => if o = 3 then 1 else 0) 3
      = some ([], [0, 1, 2, 3, 4], 1) ∧
    (4 ∈ [0, 1, 2, 3, 4]) ∧ ¬ (4 < 3) ∧
    compFunc_BLACK_RLE (fun o => if o = 3 then 5 else 0) 6
      = some ([], [0, 1, 2, 3, 4], 5) ∧
    ¬ (5 ≤ 6 / 3) := by
  refine ⟨rfl, by decide, by decide, rfl, by decide⟩

/-! ### Render-loop lemmas and claims C3, C4, C7 -/

/-- The wait loop's only observable actions are kick interrupts. -/
theorem waitLoop_events_kick :
    ∀ rs : List WaitResult, ∀ e ∈ (waitLoop rs).1, e = Event.kick := by
  intro rs
  induction rs with
  | nil => intro e he; simp [waitLoop] at he
  | cons r rest ih =>
    intro e he
    cases r with
    | ok => simp [waitLoop] at he
    | error => simp [waitLoop] at he
    | timeout =>
      simp only [waitLoop, List.mem_cons] at he
      rcases he with he | he
      · exact he
      · exact ih e he

/-- A reachable cached format never compares equal to a header the
negotiator's switches would reject. -/
theorem areFormatsSame_false_of_bad (st : RenderState) (h : KVMGFXHeader)
    (hg : goodCache st)
    (hbad : recognizeFrameType h.frameType = false ∨
            recognizeCompType h.compType = false) :
    areFormatsSame st.format h = false := by
  cases hb : areFormatsSame st.format h
  · rfl
  · exfalso
    simp only [areFormatsSame, Bool.and_eq_true, bne_iff_ne, beq_iff_eq, ne_eq] at hb
    obtain ⟨⟨⟨⟨⟨⟨h1, _⟩, _⟩, hft⟩, hct⟩, _⟩, _⟩ := hb
    rcases hg with hg | ⟨hrf, hrc⟩
    · exact h1 hg
    · rw [hft] at hrf
      rw [hct] at hrc
      rcases hbad with hb2 | hb2
      · rw [hrf] at hb2; cases hb2
      · rw [hrc] at hb2; cases hb2

/-- With an INVALID cached format the comparison fails at once. -/
theorem areFormatsSame_false_left (st : RenderState) (h : KVMGFXHeader)
    (hfmt : st.format.frameType = FRAME_TYPE_INVALID) :
    areFormatsSame st.format h = false := by
  simp [areFormatsSame, hfmt, FRAME_TYPE_INVALID]

/-- On a rejected header the negotiator defers: it reports `continue`,
caches frameType INVALID, leaves the running flag alone, and emits at
most the texture destruction. -/
theorem negotiate_bad (st : RenderState) (h : KVMGFXHeader) (nb : Nat → Nat)
    (hns : areFormatsSame st.format h = false)
    (hbad : recognizeFrameType h.frameType = false ∨
            recognizeCompType h.compType = false) :
    (negotiate st h nb).1 = false ∧
    (negotiate st h nb).2.1.format.frameType = FRAME_TYPE_INVALID ∧
    (negotiate st h nb).2.1.running = st.running ∧
    ((negotiate st h nb).2.2 = [] ∨ (negotiate st h nb).2.2 = [Event.destroyTexture]) := by
  by_cases hft : recognizeFrameType h.frameType = true
  · have hct : recognizeCompType h.compType = false := by
      rcases hbad with hb | hb
      · rw [hft] at hb; cases hb
      · exact hb
    by_cases ht : st.texture <;>
      simp [negotiate, hns, hft, hct, ht]
  · have hft2 : recognizeFrameType h.frameType = false := by
      cases hb : recognizeFrameType h.frameType
      · rfl
      · exact absurd hb hft
    by_cases ht : st.texture <;>
      simp [negotiate, hns, hft2, ht]

/-- One render iteration on a ready frame whose header the negotiator
rejects: the iteration continues, the cached frameType becomes INVALID,
the running flag is untouched, and no texture allocation, decode or
present happens. -/
theorem renderIter_bad (st : RenderState) (inp : IterInput)
    (hg : goodCache st)
    (hm : inp.header.magic = KVMGFX_HEADER_MAGIC)
    (hv : inp.header.version = 2)
    (hready : (waitLoop inp.waits).2 = WaitOutcome.ready)
    (hbad : recognizeFrameType inp.header.frameType = false ∨
            recognizeCompType inp.header.compType = false) :
    (renderIter st inp).1 = IterOut.cont ∧
    (renderIter st inp).2.1.format.frameType = FRAME_TYPE_INVALID ∧
    (renderIter st inp).2.1.running = st.running ∧
    ((renderIter st inp).2.2.all
      (fun e => !(isCreateEvent e || isDecodeEvent e || isPresentEvent e))) = true := by
  have hns := areFormatsSame_false_of_bad st inp.header hg hbad
  rcases hwl : waitLoop inp.waits with ⟨kicks, outc⟩
  rw [hwl] at hready
  simp only at hready
  subst hready
  rcases hneg : negotiate st inp.header inp.newBuf with ⟨ok, st1, evs⟩
  have hb := negotiate_bad st inp.header inp.newBuf hns hbad
  rw [hneg] at hb
  simp only at hb
  obtain ⟨hok, hfmt1, hrun1, hevs⟩ := hb
  subst hok
  have hre : renderIter st inp = (IterOut.cont, st1, kicks ++ evs) := by
    simp only [renderIter, hm, hv, ne_eq, not_true_eq_false, if_false, hwl, hneg]
  rw [hre]
  refine ⟨rfl, hfmt1, hrun1, ?_⟩
  rw [List.all_append]
  have hk : kicks.all (fun e => !(isCreateEvent e || isDecodeEvent e || isPresentEvent e)) = true := by
    rw [List.all_eq_true]
    intro e he
    have : e = Event.kick := by
      have := waitLoop_events_kick inp.waits e
      rw [hwl] at this
      exact this he
    rw [this]
    rfl
  have he2 : evs.all (fun e => !(isCreateEvent e || isDecodeEvent e || isPresentEvent e)) = true := by
    rcases hevs with hevs | hevs <;> rw [hevs] <;> rfl
  rw [hk, he2]
  rfl

/-- A guard-skipped iteration (bad magic or bad version) is a no-op. -/
theorem renderIter_skip (st : RenderState) (inp : IterInput)
    (hskip : inp.header.magic ≠ KVMGFX_HEADER_MAGIC ∨ inp.header.version ≠ 2) :
    renderIter st inp = (IterOut.cont, st, []) := by
  by_cases hm : inp.header.magic = KVMGFX_HEADER_MAGIC
  · have hv : inp.header.version ≠ 2 := by
      rcases hskip with hs | hs
      · exact absurd hm hs
      · exact hs
    simp [renderIter, hm, hv]
  · simp [renderIter, hm]

/-- C4: a header with an unrecognised frameType or compType makes the
negotiator cache frameType INVALID and skip the iteration — no texture is
allocated, nothing is decoded or presented, no error is raised — the
cached format stays INVALID across any run of such iterations, and a
later recognised header is adopted wholesale (with a texture
allocation). -/
theorem renderThread_unrecognized_header :
    (∀ (st : RenderState) (inp : IterInput),
      goodCache st →
      inp.header.magic = KVMGFX_HEADER_MAGIC →
      inp.header.version = 2 →
      (waitLoop inp.waits).2 = WaitOutcome.ready →
      (recognizeFrameType inp.header.frameType = false ∨
       recognizeCompType inp.header.compType = false) →
      (renderIter st inp).1 = IterOut.cont ∧
      (renderIter st inp).2.1.format.frameType = FRAME_TYPE_INVALID ∧
      (renderIter st inp).2.1.running = st.running ∧
      ((renderIter st inp).2.2.all
        (fun e => !(isCreateEvent e || isDecodeEvent e || isPresentEvent e))) = true) ∧
    (∀ (inps : List IterInput) (st : RenderState),
      st.format.frameType = FRAME_TYPE_INVALID →
      (∀ inp ∈ inps, skipOrBadIter inp) →
      (renderLoop st inps).1.format.frameType = FRAME_TYPE_INVALID ∧
      ((renderLoop st inps).2.1.all
        (fun e => !(isCreateEvent e || isDecodeEvent e || isPresentEvent e))) = true ∧
      (renderLoop st inps).2.2 = false) ∧
    (∀ (st : RenderState) (inp : IterInput),
      st.format.frameType = FRAME_TYPE_INVALID →
      inp.header.magic = KVMGFX_HEADER_MAGIC →
      inp.header.version = 2 →
      (waitLoop inp.waits).2 = WaitOutcome.ready →
      recognizeFrameType inp.header.frameType = true →
      recognizeCompType inp.header.compType = true →
      (renderIter st inp).2.1.format = inp.header ∧
      Event.createTexture inp.header.width inp.header.height ∈ (renderIter st inp).2.2) := by
  refine ⟨renderIter_bad, ?_, ?_⟩
  · intro inps
    induction inps with
    | nil =>
      intro st hfmt _
      exact ⟨hfmt, rfl, rfl⟩
    | cons inp rest ih =>
      intro st hfmt hall
      have hskip := hall inp (List.mem_cons_self inp rest)
      by_cases hr : st.running
      · rcases hcase : renderIter st inp with ⟨out, st1, evs⟩
        have hfacts : out = IterOut.cont ∧ st1.format.frameType = FRAME_TYPE_INVALID ∧
            (evs.all (fun e => !(isCreateEvent e || isDecodeEvent e || isPresentEvent e))) = true := by
          rcases hskip with hs | hs | ⟨hready, hbad⟩
          · have := renderIter_skip st inp (Or.inl hs)
            rw [hcase] at this
            simp only [Prod.mk.injEq] at this
            obtain ⟨h1, h2, h3⟩ := this
            exact ⟨h1, by rw [h2]; exact hfmt, by rw [h3]; rfl⟩
          · have := renderIter_skip st inp (Or.inr hs)
            rw [hcase] at this
            simp only [Prod.mk.injEq] at this
            obtain ⟨h1, h2, h3⟩ := this
            exact ⟨h1, by rw [h2]; exact hfmt, by rw [h3]; rfl⟩
          · by_cases hm : inp.header.magic = KVMGFX_HEADER_MAGIC
            · by_cases hv : inp.header.version = 2
              · have := renderIter_bad st inp (Or.inl hfmt) hm hv hready hbad
                rw [hcase] at this
                exact ⟨this.1, this.2.1, this.2.2.2⟩
              · have := renderIter_skip st inp (Or.inr hv)
                rw [hcase] at this
                simp only [Prod.mk.injEq] at this
                obtain ⟨h1, h2, h3⟩ := this
                exact ⟨h1, by rw [h2]; exact hfmt, by rw [h3]; rfl⟩
            · have := renderIter_skip st inp (Or.inl hm)
              rw [hcase] at this
              simp only [Prod.mk.injEq] at this
              obtain ⟨h1, h2, h3⟩ := this
              exact ⟨h1, by rw [h2]; exact hfmt, by rw [h3]; rfl⟩
        obtain ⟨hout, hfmt1, hquiet⟩ := hfacts
        subst hout
        have hrest := ih st1 hfmt1 (fun i hi => hall i (List.mem_cons_of_mem inp hi))
        simp only [renderLoop, hr, if_true, hcase]
        refine ⟨hrest.1, ?_, hrest.2.2⟩
        rw [List.all_append, hquiet, hrest.2.1]
        rfl
      · simp only [renderLoop, hr, if_false]
        exact ⟨hfmt, rfl, rfl⟩
  · intro st inp hfmt hm hv hready hft hct
    have hns := areFormatsSame_false_left st inp.header hfmt
    rcases hwl : waitLoop inp.waits with ⟨kicks, outc⟩
    rw [hwl] at hready
    simp only at hready
    subst hready
    have hneg : negotiate st inp.header inp.newBuf =
        (true,
         { (if st.texture then ({ st with texture := false }, [Event.destroyTexture])
            else (st, ([] : List Event))).1 with
             drawFunc := some inp.header.frameType,
             compFunc := some inp.header.compType, texture := true,
             dst := inp.newBuf, format := inp.header, windowChanged := true },
         (if st.texture then ({ st with texture := false }, [Event.destroyTexture])
          else (st, ([] : List Event))).2 ++
           [Event.setWindowSize inp.header.width inp.header.height, Event.setWindowPosition,
            Event.createTexture inp.header.width inp.header.height, Event.lockTexture]) := by
      simp [negotiate, hns, hft, hct]
    have hre : renderIter st inp =
        (IterOut.cont,
         { ({ (if st.texture then ({ st with texture := false }, [Event.destroyTexture])
              else (st, ([] : List Event))).1 with
               drawFunc := some inp.header.frameType,
               compFunc := some inp.header.compType, texture := true,
               dst := inp.newBuf, format := inp.header, windowChanged := true } : RenderState) with
             blend := (runDrawFunc inp.header.frameType inp.header
               (inp.header.compType) inp.newBuf inp.payload false).blend,
             dst := (runDrawFunc inp.header.frameType inp.header
               (inp.header.compType) inp.newBuf inp.payload false).dst,
             started := true },
         kicks ++
           ((if st.texture then ({ st with texture := false }, [Event.destroyTexture])
             else (st, ([] : List Event))).2 ++
             [Event.setWindowSize inp.header.width inp.header.height, Event.setWindowPosition,
              Event.createTexture inp.header.width inp.header.height, Event.lockTexture]) ++
           [Event.disableLogicOp] ++
           (runDrawFunc inp.header.frameType inp.header
             (inp.header.compType) inp.newBuf inp.payload false).events) := by
      simp only [renderIter, hm, hv, ne_eq, not_true_eq_false, if_false, hwl, hneg,
        Option.getD_some]
    rw [hre]
    constructor
    · rfl
    · simp

/-- Witness for C4: a ready frame with the unrecognised frameType 9 makes
the initial render state defer with an INVALID cached format. -/
theorem renderThread_unrecognized_header_witness :
    (renderIter rst0
      { header := { magic := KVMGFX_HEADER_MAGIC, version := 2, guestID := 0, hostID := 0,
                    frameType := 9, compType := 0, width := 1, height := 1, stride := 1,
                    mouseX := 0, mouseY := 0 },
        waits := [WaitResult.ok], payload := fun _ => 0, newBuf := fun _ => 0 }).1
      = IterOut.cont ∧
    (renderIter rst0
      { header := { magic := KVMGFX_HEADER_MAGIC, version := 2, guestID := 0, hostID := 0,
                    frameType := 9, compType := 0, width := 1, height := 1, stride := 1,
                    mouseX := 0, mouseY := 0 },
        waits := [WaitResult.ok], payload := fun _ => 0, newBuf := fun _ => 0 }).2.1.format.frameType
      = FRAME_TYPE_INVALID := by
  have h := renderThread_unrecognized_header.1 rst0
    { header := { magic := KVMGFX_HEADER_MAGIC, version := 2, guestID := 0, hostID := 0,
                  frameType := 9, compType := 0, width := 1, height := 1, stride := 1,
                  mouseX := 0, mouseY := 0 },
      waits := [WaitResult.ok], payload := fun _ => 0, newBuf := fun _ => 0 }
    (Or.inl rfl) rfl rfl rfl (Or.inl (by decide))
  exact ⟨h.1, h.2.1⟩

/-- C3 evaluation: when `ivshmem_wait_irq` reports an error on a valid
header, the render loop exits through the break (no decode, no present),
but `state.running` is left true, so `while(state.running)
renderThread(NULL);` in main immediately re-invokes the render thread —
two invocations within two loop turns — instead of converging to
shutdown. -/
theorem renderLoop_wait_error_eval :
    (renderLoop rst0 [errInput]).2.2 = true ∧
    ((renderLoop rst0 [errInput]).2.1.all
      (fun e => !(isDecodeEvent e || isPresentEvent e))) = true ∧
    (renderLoop rst0 [errInput]).1.running = true ∧
    (mainRenderLoop 2 rst0 (fun _ => [errInput])).1 = 2 := by
  refine ⟨rfl, rfl, rfl, rfl⟩

/-- Every draw function issues its compositing and present calls with the
blend flag on exactly for XOR (it is invoked right after
`glDisable(GL_COLOR_LOGIC_OP)`, so its incoming blend state is off). -/
theorem runDrawFunc_blendOK (ft : Nat) (h : KVMGFXHeader) (ct : Nat) (dst src : Nat → Nat) :
    ((runDrawFunc ft h ct dst src false).events.all eventBlendOK) = true := by
  unfold runDrawFunc
  split_ifs <;> rfl

/-- The negotiator never presents or composites, so its events trivially
respect the blend discipline. -/
theorem negotiate_events_blendOK (st : RenderState) (h : KVMGFXHeader) (nb : Nat → Nat) :
    ((negotiate st h nb).2.2.all eventBlendOK) = true := by
  unfold negotiate
  by_cases hs : areFormatsSame st.format h <;> by_cases ht : st.texture <;>
    by_cases hft : recognizeFrameType h.frameType <;>
    by_cases hct : recognizeCompType h.compType <;>
    simp [hs, ht, hft, hct, eventBlendOK]

/-- All events of one render iteration respect the blend discipline. -/
theorem renderIter_events_blendOK (st : RenderState) (inp : IterInput) :
    ((renderIter st inp).2.2.all eventBlendOK) = true := by
  by_cases hm : inp.header.magic = KVMGFX_HEADER_MAGIC
  · by_cases hv : inp.header.version = 2
    · rcases hwl : waitLoop inp.waits with ⟨kicks, outc⟩
      have hkicks : kicks.all eventBlendOK = true := by
        rw [List.all_eq_true]
        intro e he
        have hek := waitLoop_events_kick inp.waits e
        rw [hwl] at hek
        rw [hek he]
        rfl
      cases outc with
      | failed =>
        have hre : renderIter st inp = (IterOut.brk, st, kicks) := by
          simp only [renderIter, hm, hv, ne_eq, not_true_eq_false, if_false, hwl]
        rw [hre]
        exact hkicks
      | pending =>
        have hre : renderIter st inp = (IterOut.stuck, st, kicks) := by
          simp only [renderIter, hm, hv, ne_eq, not_true_eq_false, if_false, hwl]
        rw [hre]
        exact hkicks
      | ready =>
        rcases hneg : negotiate st inp.header inp.newBuf with ⟨ok, st1, evs⟩
        have hevs : evs.all eventBlendOK = true := by
          have := negotiate_events_blendOK st inp.header inp.newBuf
          rw [hneg] at this
          exact this
        cases ok with
        | false =>
          have hre : renderIter st inp = (IterOut.cont, st1, kicks ++ evs) := by
            simp only [renderIter, hm, hv, ne_eq, not_true_eq_false, if_false, hwl, hneg]
          rw [hre]
          simp only [List.all_append, hkicks, hevs]
          rfl
        | true =>
          cases hdf : st1.drawFunc with
          | none =>
            have hre : renderIter st inp = (IterOut.cont,
                { st1 with blend := false, started := true },
                kicks ++ evs ++ [Event.disableLogicOp]) := by
              simp only [renderIter, hm, hv, ne_eq, not_true_eq_false, if_false, hwl, hneg, hdf]
            rw [hre]
            simp only [List.all_append, hkicks, hevs]
            rfl
          | some ft =>
            have hrd := runDrawFunc_blendOK ft inp.header (st1.compFunc.getD 0) st1.dst inp.payload
            have hre : renderIter st inp = (IterOut.cont,
                { st1 with
                    blend := (runDrawFunc ft inp.header (st1.compFunc.getD 0)
                      st1.dst inp.payload false).blend,
                    dst := (runDrawFunc ft inp.header (st1.compFunc.getD 0)
                      st1.dst inp.payload false).dst,
                    started := true },
                kicks ++ evs ++ [Event.disableLogicOp] ++
                  (runDrawFunc ft inp.header (st1.compFunc.getD 0)
                    st1.dst inp.payload false).events) := by
              simp only [renderIter, hm, hv, ne_eq, not_true_eq_false, if_false, hwl, hneg, hdf]
            rw [hre]
            simp only [List.all_append, hkicks, hevs, hrd]
            rfl
    · rw [renderIter_skip st inp (Or.inr hv)]
      rfl
  · rw [renderIter_skip st inp (Or.inl hm)]
    rfl

/-- C7: after `drawFunc_XOR` completes, the whole decode destination
buffer (`height * stride * 3` bytes) is zeroed; its event sequence
enables the XOR blend, presents, and only then clears the buffer; and in
every render-loop trace each compositing/present call runs with the blend
on exactly when its draw function is XOR — the blend is switched off by
the `glDisable` preceding every draw call, so it is active only during
drawFunc_XOR's own presentation. -/
theorem drawFunc_XOR_blend_discipline :
    (∀ (h : KVMGFXHeader) (ct : Nat) (dst src : Nat → Nat) (b : Bool) (o : Nat),
      o < h.height * h.stride * 3 → (drawFunc_XOR h ct dst src b).dst o = 0) ∧
    (∀ (h : KVMGFXHeader) (ct : Nat) (dst src : Nat → Nat) (b : Bool),
      (drawFunc_XOR h ct dst src b).events
        = [Event.enableLogicOp, Event.decode ct (h.height * h.stride * 3), Event.kick,
           Event.unlockTexture, Event.renderCopy FRAME_TYPE_XOR true,
           Event.present FRAME_TYPE_XOR true, Event.memsetDst]) ∧
    (∀ (inps : List IterInput) (st : RenderState),
      ((renderLoop st inps).2.1.all eventBlendOK) = true) := by
  refine ⟨?_, ?_, ?_⟩
  · intro h ct dst src b o ho
    simp [drawFunc_XOR, ho]
  · intro h ct dst src b
    rfl
  · intro inps
    induction inps with
    | nil => intro st; rfl
    | cons inp rest ih =>
      intro st
      by_cases hr : st.running
      · rcases hcase : renderIter st inp with ⟨out, st1, evs⟩
        have hevs : evs.all eventBlendOK = true := by
          have := renderIter_events_blendOK st inp
          rw [hcase] at this
          exact this
        cases out with
        | cont =>
          simp only [renderLoop, hr, if_true, hcase]
          rw [List.all_append, hevs, ih st1]
          rfl
        | brk =>
          simp only [renderLoop, hr, if_true, hcase]
          rw [List.all_append, hevs]
          rfl
        | stuck =>
          simp only [renderLoop, hr, if_true, hcase]
          exact hevs
      · simp only [renderLoop, hr, if_false]
        rfl

/-- Witness for C7: byte 0 of the decode buffer is zero after a concrete
XOR presentation. -/
theorem drawFunc_XOR_blend_discipline_witness :
    (drawFunc_XOR validHdr FRAME_COMP_NONE (fun _ => 5) (fun _ => 9) false).dst 0 = 0 :=
  drawFunc_XOR_blend_discipline.1 validHdr FRAME_COMP_NONE
    (fun _ => 5) (fun _ => 9) false 0 (by decide)

/-! ### Claims C6, C8, C9 -/

/-- C6: with frames started, the init warp done and no pending window
change, pressing the Scroll Lock hotkey (non-repeat) twice returns the
forwarder to its original pointer mode; when the second toggle lands back
in Absolute mode the cursor is warped to the guest-reported position
`(shm->mouseX, shm->mouseY)`, which also becomes the last-known position;
and neither press forwards any key message to the guest. -/
theorem eventThread_toggle_twice :
    ∀ (tbl : List Nat) (sok : SpiceCall → Bool) (g : EventGlobals) (es : EventLocals),
      g.started = true → es.haveInit = true → g.windowChanged = false →
      ((processEvent tbl sok
          ((processEvent tbl sok g es (SDLEvent.keyDown SDL_SCANCODE_SCROLLLOCK false)).1)
          ((processEvent tbl sok g es (SDLEvent.keyDown SDL_SCANCODE_SCROLLLOCK false)).2.1)
          (SDLEvent.keyDown SDL_SCANCODE_SCROLLLOCK false)).2.1.serverMode
        = es.serverMode) ∧
      (es.serverMode = false →
        ((processEvent tbl sok
            ((processEvent tbl sok g es (SDLEvent.keyDown SDL_SCANCODE_SCROLLLOCK false)).1)
            ((processEvent tbl sok g es (SDLEvent.keyDown SDL_SCANCODE_SCROLLLOCK false)).2.1)
            (SDLEvent.keyDown SDL_SCANCODE_SCROLLLOCK false)).2.1.mouseX = g.shmMouseX ∧
         (processEvent tbl sok
            ((processEvent tbl sok g es (SDLEvent.keyDown SDL_SCANCODE_SCROLLLOCK false)).1)
            ((processEvent tbl sok g es (SDLEvent.keyDown SDL_SCANCODE_SCROLLLOCK false)).2.1)
            (SDLEvent.keyDown SDL_SCANCODE_SCROLLLOCK false)).2.1.mouseY = g.shmMouseY ∧
         Act.warpMouse g.shmMouseX g.shmMouseY ∈
           (processEvent tbl sok
              ((processEvent tbl sok g es (SDLEvent.keyDown SDL_SCANCODE_SCROLLLOCK false)).1)
              ((processEvent tbl sok g es (SDLEvent.keyDown SDL_SCANCODE_SCROLLLOCK false)).2.1)
              (SDLEvent.keyDown SDL_SCANCODE_SCROLLLOCK false)).2.2)) ∧
      (((processEvent tbl sok g es (SDLEvent.keyDown SDL_SCANCODE_SCROLLLOCK false)).2.2.all
          (fun a => !(isKeyAct a))) = true) ∧
      (((processEvent tbl sok
          ((processEvent tbl sok g es (SDLEvent.keyDown SDL_SCANCODE_SCROLLLOCK false)).1)
          ((processEvent tbl sok g es (SDLEvent.keyDown SDL_SCANCODE_SCROLLLOCK false)).2.1)
          (SDLEvent.keyDown SDL_SCANCODE_SCROLLLOCK false)).2.2.all
          (fun a => !(isKeyAct a))) = true) := by
  intro tbl sok g es hstart hinit hwc
  cases hsm : es.serverMode <;>
    simp [processEvent, hstart, hinit, hwc, hsm, isKeyAct]

/-- Witness for C6: starting in Absolute mode with guest position
(10, 20), two Scroll Lock presses land back in Absolute mode with the
cursor warped to (10, 20). -/
theorem eventThread_toggle_twice_witness :
    ((processEvent [] (fun _ => true)
        ((processEvent [] (fun _ => true)
           ⟨true, true, false, 10, 20⟩ ⟨false, 0, 0, true⟩
           (SDLEvent.keyDown SDL_SCANCODE_SCROLLLOCK false)).1)
        ((processEvent [] (fun _ => true)
           ⟨true, true, false, 10, 20⟩ ⟨false, 0, 0, true⟩
           (SDLEvent.keyDown SDL_SCANCODE_SCROLLLOCK false)).2.1)
        (SDLEvent.keyDown SDL_SCANCODE_SCROLLLOCK false)).2.1.serverMode = false) ∧
    ((processEvent [] (fun _ => true)
        ((processEvent [] (fun _ => true)
           ⟨true, true, false, 10, 20⟩ ⟨false, 0, 0, true⟩
           (SDLEvent.keyDown SDL_SCANCODE_SCROLLLOCK false)).1)
        ((processEvent [] (fun _ => true)
           ⟨true, true, false, 10, 20⟩ ⟨false, 0, 0, true⟩
           (SDLEvent.keyDown SDL_SCANCODE_SCROLLLOCK false)).2.1)
        (SDLEvent.keyDown SDL_SCANCODE_SCROLLLOCK false)).2.1.mouseX = 10) ∧
    Act.warpMouse 10 20 ∈
      (processEvent [] (fun _ => true)
         ((processEvent [] (fun _ => true)
            ⟨true, true, false, 10, 20⟩ ⟨false, 0, 0, true⟩
            (SDLEvent.keyDown SDL_SCANCODE_SCROLLLOCK false)).1)
         ((processEvent [] (fun _ => true)
            ⟨true, true, false, 10, 20⟩ ⟨false, 0, 0, true⟩
            (SDLEvent.keyDown SDL_SCANCODE_SCROLLLOCK false)).2.1)
         (SDLEvent.keyDown SDL_SCANCODE_SCROLLLOCK false)).2.2 := by
  have h := eventThread_toggle_twice [] (fun _ => true)
    ⟨true, true, false, 10, 20⟩ ⟨false, 0, 0, true⟩ rfl rfl rfl
  exact ⟨h.1, (h.2.1 rfl).1, (h.2.1 rfl).2.2⟩

/-- C8: while the started flag is false, every polled event other than
the quit signal is discarded with no spice call and no state change,
while the quit signal still clears the running flag. -/
theorem eventThread_not_started :
    ∀ (tbl : List Nat) (sok : SpiceCall → Bool) (g : EventGlobals) (es : EventLocals)
      (ev : SDLEvent),
      g.started = false →
      (ev ≠ SDLEvent.quit → processEvent tbl sok g es ev = (g, es, [])) ∧
      processEvent tbl sok g es SDLEvent.quit = ({ g with running := false }, es, []) := by
  intro tbl sok g es ev hstart
  constructor
  · intro hne
    simp [processEvent, hne, hstart]
  · simp [processEvent]

/-- Witness for C8: with started false a motion event is a no-op and the
quit signal clears only the running flag. -/
theorem eventThread_not_started_witness :
    processEvent [] (fun _ => true) ⟨true, false, false, 0, 0⟩ ⟨false, 0, 0, false⟩
      (SDLEvent.mouseMotion 1 2 3 4)
      = (⟨true, false, false, 0, 0⟩, ⟨false, 0, 0, false⟩, []) ∧
    processEvent [] (fun _ => true) ⟨true, false, false, 0, 0⟩ ⟨false, 0, 0, false⟩
      SDLEvent.quit
      = (⟨false, false, false, 0, 0⟩, ⟨false, 0, 0, false⟩, []) := by
  have h := eventThread_not_started [] (fun _ => true) ⟨true, false, false, 0, 0⟩
    ⟨false, 0, 0, false⟩ (SDLEvent.mouseMotion 1 2 3 4) rfl
  exact ⟨h.1 (by decide), h.2⟩

/-- C9 evaluation: the guard `scancode > sizeof(usb_to_ps2)/sizeof(uint32_t)`
admits the index one past the end of the table — `mapScancode` still
dereferences `usb_to_ps2[length]`, which is not strictly within bounds —
while every strictly larger scancode is rejected with return value 0 and
no table access. -/
theorem mapScancode_guard_off_by_one :
    ∀ tbl : List Nat,
      mapScancodeIndices tbl tbl.length = [tbl.length] ∧
      (∀ i ∈ mapScancodeIndices tbl tbl.length, ¬ i < tbl.length) ∧
      (∀ sc : Nat, tbl.length < sc →
        mapScancode tbl sc = 0 ∧ mapScancodeIndices tbl sc = []) := by
  intro tbl
  refine ⟨?_, ?_, ?_⟩
  · simp [mapScancodeIndices]
  · intro i hi
    simp [mapScancodeIndices] at hi
    omega
  · intro sc hsc
    constructor
    · simp [mapScancode, hsc]
    · simp [mapScancodeIndices, hsc]

/-- Witness for C9: on a 3-entry table, scancode 3 passes the guard and
dereferences the out-of-bounds index 3, while scancode 4 is rejected. -/
theorem mapScancode_guard_off_by_one_witness :
    mapScancodeIndices [7, 8, 9] 3 = [3] ∧ ¬ (3 < 3) ∧ mapScancode [7, 8, 9] 4 = 0 := by
  have h := mapScancode_guard_off_by_one [7, 8, 9]
  refine ⟨h.1, ?_, (h.2.2 4 (by decide)).1⟩
  exact h.2.1 3 (by rw [h.1]; exact List.mem_singleton.mpr rfl)

end LookingGlass
